import Mathlib

/-!
Verification of the Aegis sync engine (credential lifecycle and
incremental idempotent sync) against its specification.

The embedding models the Python modules `app/strava.py`, `app/ticktick.py`,
`app/db.py` and `sync_all.py`:

* the per-provider `oauth_tokens` row becomes `Option Credential` (the table
  is keyed by provider, and each provider's functions touch only their own
  row);
* HTTP calls are modelled by passing the provider's response as an
  `Except String payload` value; the number of refresh requests actually
  issued is returned explicitly so that cache-hit claims can count them;
* the relational tables for activities and tasks become partial maps from
  the primary key to a row value (`Table`), which is the content of a
  relational table keyed by its primary key;
* Python truthiness on optional strings (`if s:`) is modelled by
  `strTruthy`, and `x or y` by `orTruthy`;
* timestamps are integers (epoch seconds); the external tolerant date
  parser (`dateutil.parser.isoparse` wrapped in try/except) is a parameter
  `p : String → Option Int` of the functions that use it, wrapped by
  `parse_dt` which reproduces the `if not s` guard.
-/

namespace Aegis

/-- Python truthiness of an optional string: `None` and `""` are falsy. -/
def strTruthy : Option String → Bool
  | none => false
  | some s => !(s == "")

/-- Python `x or y` on optional strings: `x` if truthy, else `y`. -/
def orTruthy (a b : Option String) : Option String :=
  if strTruthy a then a else b

/-- Python `x or y` on optional booleans: truthy only when `some true`. -/
def boolOr (a b : Option Bool) : Option Bool :=
  if a = some true then a else b

/-- One row of the `oauth_tokens` table (per provider). -/
structure Credential where
  refresh_token : Option String
  access_token : Option String
  access_expires_at : Option Int
  updated_at : Int
deriving DecidableEq, Repr

/-- Payload of a Strava token-endpoint response: `access_token`, optional
`refresh_token`, and `expires_at` as absolute epoch seconds. -/
structure SPayload where
  access_token : Option String
  refresh_token : Option String
  expires_at : Option Int
deriving DecidableEq, Repr

/-- Payload of a TickTick token-endpoint response: `access_token`, optional
`refresh_token`, and relative `expires_in` seconds. -/
structure TPayload where
  access_token : Option String
  refresh_token : Option String
  expires_in : Option Int
deriving DecidableEq, Repr

/-- Outcome of a token-producing operation: the result (token string or the
raised error message), the provider's `oauth_tokens` row afterwards, and how
many refresh requests were issued. -/
structure TokenOutcome where
  result : Except String String
  store : Option Credential
  refreshCalls : Nat

/-- Expiry conversion in `strava.save_refresh_token`: `if expires_at_epoch:`
is a truthiness test, so a missing epoch or an epoch of `0` stores null. -/
def stravaExpiryTs (expires_at_epoch : Option Int) : Option Int :=
  match expires_at_epoch with
  | some e => if e ≠ 0 then some e else none
  | none => none

/-- Embeds `strava.save_refresh_token`: insert with
`on conflict (provider) do update` that overwrites `refresh_token`,
`access_token`, `access_expires_at`, `updated_at` with the supplied values,
so the previous row content never survives. -/
def save_refresh_token (_store : Option Credential) (rt : String)
    (at? : Option String) (expires_at_epoch : Option Int) (now : Int) :
    Option Credential :=
  some ⟨some rt, at?, stravaExpiryTs expires_at_epoch, now⟩

/-- Expiry conversion in `ticktick.save_tokens`: the expiry is
`now + expires_in` when `expires_in` is not `None` (an `is not None` test,
so `0` is kept). -/
def ticktickExpiryTs (now : Int) : Option Int → Option Int
  | some s => some (now + s)
  | none => none

/-- Embeds `ticktick.save_tokens`: the same blind-overwrite upsert with the
expiry computed by `ticktickExpiryTs`. -/
def save_tokens (_store : Option Credential) (rt? at? : Option String)
    (expires_in_secs : Option Int) (now : Int) : Option Credential :=
  some ⟨rt?, at?, ticktickExpiryTs now expires_in_secs, now⟩

/-- Embeds `strava.reset_refresh_token`: with a truthy replacement token the
insert names only `refresh_token` and `updated_at`, and the conflict branch
updates only those two columns, so an existing row keeps its
`access_token` and `access_expires_at`; with no replacement the row is
deleted. -/
def strava_reset_refresh_token (store : Option Credential)
    (new_refresh_token : Option String) (now : Int) : Option Credential :=
  if strTruthy new_refresh_token then
    match store with
    | none => some ⟨new_refresh_token, none, none, now⟩
    | some c => some ⟨new_refresh_token, c.access_token, c.access_expires_at, now⟩
  else
    none

/-- Embeds `ticktick.reset_refresh_token`: with a truthy replacement token
both the insert values and the conflict branch set `access_token` and
`access_expires_at` to null; with no replacement the row is deleted. -/
def ticktick_reset_refresh_token (_store : Option Credential)
    (new_refresh_token : Option String) (now : Int) : Option Credential :=
  if strTruthy new_refresh_token then
    some ⟨new_refresh_token, none, none, now⟩
  else
    none

/-- Embeds `strava.strava_access_token`: always loads the refresh token
(stored value or env fallback, via truthiness), and if one exists issues
one refresh request unconditionally — there is no check of the stored
access token or its expiry.  On success it persists via
`save_refresh_token`, rotating the refresh token only when the response
carries a truthy `refresh_token` different from the one used, then returns
`payload["access_token"]` (a missing key raises). -/
def strava_access_token (store : Option Credential) (envRT : Option String)
    (resp : Except String SPayload) (now : Int) : TokenOutcome :=
  let rt? := orTruthy (store.bind (·.refresh_token)) envRT
  match rt? with
  | none => ⟨.error "Missing Strava refresh token. Use UI to authorize and save it.", store, 0⟩
  | some rt =>
    if rt == "" then
      ⟨.error "Missing Strava refresh token. Use UI to authorize and save it.", store, 0⟩
    else
      match resp with
      | .error detail =>
        ⟨.error ("Strava token refresh failed: " ++ detail), store, 1⟩
      | .ok payload =>
        let store' :=
          if strTruthy payload.refresh_token ∧ payload.refresh_token ≠ some rt then
            match payload.refresh_token with
            | some nrt => save_refresh_token store nrt payload.access_token payload.expires_at now
            | none => save_refresh_token store rt payload.access_token payload.expires_at now
          else
            save_refresh_token store rt payload.access_token payload.expires_at now
        match payload.access_token with
        | some a => ⟨.ok a, store', 1⟩
        | none => ⟨.error "KeyError: access_token", store', 1⟩

/-- Embeds `ticktick.refresh_access_token`: loads the refresh token (stored
or env fallback), issues one refresh request, persists via `save_tokens`
with `payload.get("refresh_token") or rt`, then returns
`payload["access_token"]`. -/
def refresh_access_token (store : Option Credential) (envRT : Option String)
    (resp : Except String TPayload) (now : Int) : TokenOutcome :=
  let rt? := orTruthy (store.bind (·.refresh_token)) envRT
  match rt? with
  | none => ⟨.error "Missing TickTick refresh token. Use the UI to authorize and save it.", store, 0⟩
  | some rt =>
    if rt == "" then
      ⟨.error "Missing TickTick refresh token. Use the UI to authorize and save it.", store, 0⟩
    else
      match resp with
      | .error detail =>
        ⟨.error ("TickTick token refresh failed: " ++ detail), store, 1⟩
      | .ok payload =>
        let store' :=
          save_tokens store (orTruthy payload.refresh_token (some rt))
            payload.access_token payload.expires_in now
        match payload.access_token with
        | some a => ⟨.ok a, store', 1⟩
        | none => ⟨.error "KeyError: access_token", store', 1⟩

/-- Freshness test of the cached TickTick token, from `ticktick.headers`:
`if at and (exp is None or exp > now)`. -/
def tokenFresh (at? : Option String) (exp? : Option Int) (now : Int) : Bool :=
  strTruthy at? && (match exp? with
    | none => true
    | some e => decide (now < e))

/-- Embeds `ticktick.headers`: return the cached bearer header when the
stored access token is truthy and unexpired (no refresh request);
otherwise try `refresh_access_token`, and on any exception from it fall
back to a truthy `TICKTICK_ACCESS_TOKEN` env value, else raise. -/
def headers (store : Option Credential) (now : Int) (envRT envAT : Option String)
    (resp : Except String TPayload) : TokenOutcome :=
  let at? := store.bind (·.access_token)
  let exp? := store.bind (·.access_expires_at)
  if tokenFresh at? exp? now then
    match at? with
    | some a => ⟨.ok ("Bearer " ++ a), store, 0⟩
    | none => ⟨.error "unreachable", store, 0⟩
  else
    match refresh_access_token store envRT resp now with
    | ⟨.ok a, st, n⟩ => ⟨.ok ("Bearer " ++ a), st, n⟩
    | ⟨.error _, st, n⟩ =>
      match envAT with
      | some a =>
        if a == "" then ⟨.error "No valid TickTick token available. Re-authorize in the UI.", st, n⟩
        else ⟨.ok ("Bearer " ++ a), st, n⟩
      | none => ⟨.error "No valid TickTick token available. Re-authorize in the UI.", st, n⟩

/-! Relational tables.  A table keyed by its primary key is a partial map
from key to row content; `on conflict (pk) do update set ...` with every
mutable column overwritten is exactly `writeTbl`. -/

/-- Content of a relational table keyed by its primary key. -/
abbrev Table (κ ρ : Type) := κ → Option ρ

/-- The empty table. -/
def emptyTable (κ ρ : Type) : Table κ ρ := fun _ => none

/-- Insert-or-overwrite one row at key `k`. -/
def writeTbl [DecidableEq κ] (tbl : Table κ ρ) (k : κ) (r : ρ) : Table κ ρ :=
  fun k' => if k' = k then some r else tbl k'

/-- Value of the last pair of `l` carrying key `k`, if any. -/
def lastVal [DecidableEq κ] : List (κ × ρ) → κ → Option ρ
  | [], _ => none
  | kr :: rest, k =>
    match lastVal rest k with
    | some v => some v
    | none => if kr.1 = k then some kr.2 else none

/-- Apply a batch of keyed writes in order. -/
def runWrites [DecidableEq κ] (tbl : Table κ ρ) (l : List (κ × ρ)) : Table κ ρ :=
  l.foldl (fun acc kr => writeTbl acc kr.1 kr.2) tbl

/-- The tolerant timestamp parse `_parse_dt` / `_parse_ts`: `if not s`
yields none for a missing or empty string, otherwise the external parser
`p` (isoparse wrapped in try/except) yields its `Option` result. -/
def parse_dt (p : String → Option Int) : Option String → Option Int
  | none => none
  | some s => if s == "" then none else p s

/-- One raw Strava activity as fetched from the API; each field is the
value `r.get(key)` would return (numeric JSON values carried as `Int`
stand-ins, their content is opaque to the upsert). -/
structure RawActivity where
  id : Int
  type : Option String
  name : Option String
  distance : Option Int
  moving_time : Option Int
  elapsed_time : Option Int
  total_elevation_gain : Option Int
  start_date : Option String
  start_latlng : Option (List Int)
  kilojoules : Option Int
  average_heartrate : Option Int
  max_heartrate : Option Int
  elev_high : Option Int
  elev_low : Option Int
  average_speed : Option Int
  max_speed : Option Int
deriving DecidableEq, Repr

/-- One row of `strava_activities` (the primary key `id` is the map key;
`raw` holds the record whose JSON serialization the code stores). -/
structure ActivityRow where
  type : Option String
  name : Option String
  distance : Option Int
  moving_time : Option Int
  elapsed_time : Option Int
  total_elevation_gain : Option Int
  start_date : Option Int
  start_latlng : Option (List Int)
  kilojoules : Option Int
  average_heartrate : Option Int
  max_heartrate : Option Int
  elev_high : Option Int
  elev_low : Option Int
  average_speed : Option Int
  max_speed : Option Int
  raw : RawActivity
  last_synced_at : Int
deriving DecidableEq, Repr

/-- The per-record derivation inside `upsert_activities`: copy the fields,
parse `start_date` tolerantly, keep the raw payload, stamp `now`. -/
def deriveActivity (p : String → Option Int) (r : RawActivity) (now : Int) :
    ActivityRow :=
  { type := r.type
    name := r.name
    distance := r.distance
    moving_time := r.moving_time
    elapsed_time := r.elapsed_time
    total_elevation_gain := r.total_elevation_gain
    start_date := parse_dt p r.start_date
    start_latlng := r.start_latlng
    kilojoules := r.kilojoules
    average_heartrate := r.average_heartrate
    max_heartrate := r.max_heartrate
    elev_high := r.elev_high
    elev_low := r.elev_low
    average_speed := r.average_speed
    max_speed := r.max_speed
    raw := r
    last_synced_at := now }

/-- Embeds `strava.upsert_activities`: insert each record with
`on conflict (id) do update` overwriting every mutable column and stamping
`last_synced_at = now()`; the return value is `len(rows)` (the code
returns `0` for an empty list, which is its length). -/
def upsert_activities (p : String → Option Int) (tbl : Table Int ActivityRow)
    (rows : List RawActivity) (now : Int) : Table Int ActivityRow × Nat :=
  (rows.foldl (fun acc r => writeTbl acc r.id (deriveActivity p r now)) tbl,
   rows.length)

/-- One raw TickTick task as fetched from the API; fields are the
`t.get(key)` values (`repeatAlt` stands for the key named `repeat`). -/
structure RawTask where
  id : String
  projectId : Option String
  title : Option String
  content : Option String
  desc : Option String
  isAllDay : Option Bool
  allDay : Option Bool
  startDate : Option String
  dueDate : Option String
  timeZone : Option String
  repeatFlag : Option String
  repeatAlt : Option String
  reminders : Option (List String)
  priority : Option Int
  status : Option Int
  completedTime : Option String
  sortOrder : Option Int
  items : Option (List String)
  tags : Option (List String)
  modifiedTime : Option String
  createdTime : Option String
  deleted : Option Bool
  etag : Option String
deriving DecidableEq, Repr

/-- One row of `ticktick_tasks` (primary key `id` is the map key). -/
structure TaskRow where
  project_id : Option String
  title : Option String
  content : Option String
  desc : Option String
  is_all_day : Option Bool
  start_date : Option Int
  due_date : Option Int
  time_zone : Option String
  repeat_flag : Option String
  reminders : List String
  priority : Option Int
  status : Option Int
  completed_time : Option Int
  sort_order : Option Int
  items : List String
  tags : Option (List String)
  modified_time : Option Int
  created_time : Option Int
  deleted : Option Bool
  etag : Option String
  raw : RawTask
  last_synced_at : Int
deriving DecidableEq, Repr

/-- The per-record derivation inside `upsert_tasks`: tolerant timestamp
parses, `isAllDay or allDay` and `repeatFlag or repeat` fallbacks,
`reminders or []` / `items or []` defaults, raw payload kept, `now`
stamped. -/
def deriveTask (p : String → Option Int) (t : RawTask) (now : Int) : TaskRow :=
  { project_id := t.projectId
    title := t.title
    content := t.content
    desc := t.desc
    is_all_day := boolOr t.isAllDay t.allDay
    start_date := parse_dt p t.startDate
    due_date := parse_dt p t.dueDate
    time_zone := t.timeZone
    repeat_flag := orTruthy t.repeatFlag t.repeatAlt
    reminders := t.reminders.getD []
    priority := t.priority
    status := t.status
    completed_time := parse_dt p t.completedTime
    sort_order := t.sortOrder
    items := t.items.getD []
    tags := t.tags
    modified_time := parse_dt p t.modifiedTime
    created_time := parse_dt p t.createdTime
    deleted := t.deleted
    etag := t.etag
    raw := t
    last_synced_at := now }

/-- Embeds `ticktick.upsert_tasks`: insert each task with
`on conflict (id) do update` overwriting every mutable column and stamping
`last_synced_at = now()`; returns `len(tasks)`. -/
def upsert_tasks (p : String → Option Int) (tbl : Table String TaskRow)
    (tasks : List RawTask) (now : Int) : Table String TaskRow × Nat :=
  (tasks.foldl (fun acc t => writeTbl acc t.id (deriveTask p t now)) tbl,
   tasks.length)

/-! Transactional behaviour.  `db()` in `app/db.py` opens one connection
for the whole `with db() as conn:` block, commits once when the block exits
normally, and rolls back when any exception escapes it.  Both upsert
functions run their whole per-record loop inside a single such block, so
the batch is one transaction unit. -/

/-- Buffered execution of the per-record loop of `upsert_activities`
inside one connection: `fails i` says the `i`-th `cur.execute` raises a
storage error. -/
def upsertActivitiesLoop (p : String → Option Int) (fails : Nat → Bool)
    (now : Int) : Table Int ActivityRow → List RawActivity → Nat →
    Except String (Table Int ActivityRow)
  | tbl, [], _ => .ok tbl
  | tbl, r :: rest, i =>
    if fails i then .error "MergeError"
    else upsertActivitiesLoop p fails now
      (writeTbl tbl r.id (deriveActivity p r now)) rest (i + 1)

/-- Embeds `upsert_activities` together with the `db()` context manager:
on normal exit the buffered writes are committed; on an exception the
connection is rolled back, leaving the durable state exactly as before
the call, and the exception propagates. -/
def upsert_activities_tx (p : String → Option Int)
    (durable : Table Int ActivityRow) (rows : List RawActivity)
    (fails : Nat → Bool) (now : Int) :
    Table Int ActivityRow × Except String Nat :=
  match upsertActivitiesLoop p fails now durable rows 0 with
  | .ok tbl => (tbl, .ok rows.length)
  | .error e => (durable, .error e)

/-! Pagination.  `strava.fetch_all_activities` first obtains a token, then
runs a page-cursor loop: request page `page`, stop when the returned batch
is empty, otherwise append it and continue with `page + 1`.  The page
source is abstracted as `source : Nat → List α` (the decoded body of the
request for that page number); the loop is given fuel to express it as a
total function, and the theorem supplies enough fuel. -/

/-- The page-cursor loop of `fetch_all_activities`, returning the
accumulated records and the number of page requests issued, or `none` when
the fuel runs out before an empty page is seen. -/
def fetchPagesLoop (source : Nat → List α) :
    Nat → Nat → List α → Nat → Option (List α × Nat)
  | 0, _, _, _ => none
  | fuel + 1, page, acc, reqs =>
    let batch := source page
    if batch.isEmpty then some (acc, reqs + 1)
    else fetchPagesLoop source fuel (page + 1) (acc ++ batch) (reqs + 1)

/-- Embeds the pagination part of `fetch_all_activities`, starting at
`page_start` with an empty accumulator and zero requests issued. -/
def fetch_all_activities (source : Nat → List α) (page_start fuel : Nat) :
    Option (List α × Nat) :=
  fetchPagesLoop source fuel page_start [] 0

/-! Orchestration (`sync_all.py`).  The bodies of the `try` blocks are
parametrised by the outcome of their external calls: `fetch` is the result
of `fetch_all_activities` (which itself includes the token refresh),
`upsert` the result of the upsert call, `projects` the result of
`list_projects`, and `tasksOf` the result of `get_project_tasks` per
project.  An `Except.error e` value is the message of the exception the
call raised. -/

/-- Per-provider status of a sync result. -/
inductive PStat where
  | success
  | error
deriving DecidableEq, Repr

/-- The result dictionary built by `sync_strava`. -/
structure StravaResult where
  status : PStat
  activities_synced : Nat
  errors : List String
deriving DecidableEq, Repr

/-- The result dictionary built by `sync_ticktick`. -/
structure TickResult where
  status : PStat
  tasks_synced : Nat
  projects_synced : Nat
  errors : List String
deriving DecidableEq, Repr

/-- Embeds `sync_all.sync_strava`: any exception from the fetch (token
refresh included) or the upsert is caught and turned into
`status = error` with one message appended; an empty fetch returns the
initial success result; otherwise the upsert count is recorded. -/
def sync_strava (fetch : Except String (List RawActivity))
    (upsert : List RawActivity → Except String Nat) : StravaResult :=
  match fetch with
  | .error e => ⟨.error, 0, ["Strava sync failed: " ++ e]⟩
  | .ok activities =>
    if activities.isEmpty then ⟨.success, 0, []⟩
    else
      match upsert activities with
      | .ok count => ⟨.success, count, []⟩
      | .error e => ⟨.error, 0, ["Strava sync failed: " ++ e]⟩

/-- One TickTick project as returned by `list_projects`. -/
structure TProject where
  id : String
deriving DecidableEq, Repr

/-- The body of the inner per-project `try` of `sync_ticktick`: fetch the
project's tasks, and if the list is non-empty upsert it; the returned flag
says whether `projects_synced` was incremented. -/
def syncProject (tasksOf : TProject → Except String (List RawTask))
    (upsert : List RawTask → Except String Nat) (pr : TProject) :
    Except String (Nat × Bool) :=
  match tasksOf pr with
  | .error e => .error e
  | .ok tasks =>
    if tasks.isEmpty then .ok (0, false)
    else
      match upsert tasks with
      | .error e => .error e
      | .ok count => .ok (count, true)

/-- The per-project loop of `sync_ticktick`: an inner exception appends
`"Failed to sync project <id>: <e>"` to the error list and the loop
continues with the remaining projects. -/
def tickLoop (tasksOf : TProject → Except String (List RawTask))
    (upsert : List RawTask → Except String Nat) :
    List TProject → Nat × Nat × List String → Nat × Nat × List String
  | [], acc => acc
  | pr :: rest, (total, ps, errs) =>
    match syncProject tasksOf upsert pr with
    | .ok (count, counted) =>
      tickLoop tasksOf upsert rest
        (total + count, ps + (if counted then 1 else 0), errs)
    | .error e =>
      tickLoop tasksOf upsert rest
        (total, ps, errs ++ ["Failed to sync project " ++ pr.id ++ ": " ++ e])

/-- Embeds `sync_all.sync_ticktick` (all-projects path): a failure of
`list_projects` is caught by the outer handler and gives `status = error`;
otherwise the loop runs over every project and the status stays
`success`, whatever the inner errors were. -/
def sync_ticktick (projects : Except String (List TProject))
    (tasksOf : TProject → Except String (List RawTask))
    (upsert : List RawTask → Except String Nat) : TickResult :=
  match projects with
  | .error e => ⟨.error, 0, 0, ["TickTick sync failed: " ++ e]⟩
  | .ok l =>
    let r := tickLoop tasksOf upsert l (0, 0, [])
    ⟨.success, r.1, r.2.1, r.2.2⟩

/-- Overall status of a run. -/
inductive Overall where
  | success
  | partial_failure
  | failure
deriving DecidableEq, Repr

/-- Embeds the aggregation in `sync_all.main`: start at `success`; each
enabled provider whose result has `status == error` moves the overall
status to `partial_failure`; and only when both providers ran and both
errored is it set to `failure` at the end. -/
def overall_status (skip_strava skip_ticktick : Bool)
    (sres : StravaResult) (tres : TickResult) : Overall :=
  let o0 : Overall := .success
  let sOpt : Option StravaResult := if skip_strava then none else some sres
  let o1 : Overall :=
    match sOpt with
    | some r => if r.status = .error then .partial_failure else o0
    | none => o0
  let tOpt : Option TickResult := if skip_ticktick then none else some tres
  let o2 : Overall :=
    match tOpt with
    | some r => if r.status = .error then .partial_failure else o1
    | none => o1
  let bothFailed : Bool :=
    (match sOpt with | some r => r.status = .error | none => false) &&
    (match tOpt with | some r => r.status = .error | none => false)
  if bothFailed then .failure else o2

/-- Exit-code mapping at the end of `main`. -/
def exit_code : Overall → Nat
  | .failure => 1
  | .partial_failure => 2
  | .success => 0

/-! Supporting lemmas. -/

/-- Concatenation of `N` consecutive pages starting at page `start`. -/
def pagesConcat (source : Nat → List α) : Nat → Nat → List α
  | _, 0 => []
  | start, n + 1 => source start ++ pagesConcat source (start + 1) n

lemma fetchPagesLoop_spec (source : Nat → List α) :
    ∀ (n start : Nat) (acc : List α) (reqs fuel : Nat),
      (∀ i, i < n → source (start + i) ≠ []) →
      source (start + n) = [] →
      n + 1 ≤ fuel →
      fetchPagesLoop source fuel start acc reqs =
        some (acc ++ pagesConcat source start n, reqs + (n + 1)) := by
  intro n
  induction n with
  | zero =>
    intro start acc reqs fuel _ hempty hfuel
    obtain ⟨f, rfl⟩ : ∃ f, fuel = f + 1 := ⟨fuel - 1, by omega⟩
    have h0 : source start = [] := by simpa using hempty
    simp [fetchPagesLoop, h0, pagesConcat]
  | succ m ih =>
    intro start acc reqs fuel hne hempty hfuel
    obtain ⟨f, rfl⟩ : ∃ f, fuel = f + 1 := ⟨fuel - 1, by omega⟩
    have h0 : source start ≠ [] := by simpa using hne 0 (by omega)
    have hb : (source start).isEmpty = false := by
      cases hsrc : source start with
      | nil => exact absurd hsrc h0
      | cons a l => rfl
    have hstep := ih (start + 1) (acc ++ source start) (reqs + 1) f
      (fun i hi => by
        have := hne (i + 1) (by omega)
        rwa [show start + (i + 1) = start + 1 + i by omega] at this)
      (by rwa [show start + 1 + m = start + (m + 1) by omega])
      (by omega)
    simp only [fetchPagesLoop, hb]
    rw [if_neg (by simp [hb]), hstep]
    simp [pagesConcat, List.append_assoc]
    omega

lemma runWrites_apply [DecidableEq κ] :
    ∀ (l : List (κ × ρ)) (tbl : Table κ ρ) (k : κ),
      runWrites tbl l k =
        match lastVal l k with
        | some v => some v
        | none => tbl k := by
  intro l
  induction l with
  | nil => intro tbl k; simp [runWrites, lastVal]
  | cons hd tl ih =>
    intro tbl k
    show runWrites (writeTbl tbl hd.1 hd.2) tl k = _
    rw [ih]
    cases h : lastVal tl k with
    | some v => simp [lastVal, h]
    | none =>
      by_cases hk : hd.1 = k
      · simp [lastVal, h, hk, writeTbl]
      · simp [lastVal, h, hk, writeTbl, Ne.symm hk]

lemma runWrites_twice [DecidableEq κ] (tbl : Table κ ρ) (l : List (κ × ρ)) :
    runWrites (runWrites tbl l) l = runWrites tbl l := by
  funext k
  rw [runWrites_apply, runWrites_apply]
  cases h : lastVal l k with
  | some v => rfl
  | none => rfl

lemma upsert_activities_fst (p : String → Option Int)
    (tbl : Table Int ActivityRow) (rows : List RawActivity) (now : Int) :
    (upsert_activities p tbl rows now).1 =
      runWrites tbl (rows.map fun r => (r.id, deriveActivity p r now)) := by
  simp [upsert_activities, runWrites, List.foldl_map]

lemma upsert_tasks_fst (p : String → Option Int)
    (tbl : Table String TaskRow) (tasks : List RawTask) (now : Int) :
    (upsert_tasks p tbl tasks now).1 =
      runWrites tbl (tasks.map fun t => (t.id, deriveTask p t now)) := by
  simp [upsert_tasks, runWrites, List.foldl_map]

/-- Count contributed by one project in the `sync_ticktick` loop. -/
def projCount (tasksOf : TProject → Except String (List RawTask))
    (upsert : List RawTask → Except String Nat) (pr : TProject) : Nat :=
  match syncProject tasksOf upsert pr with
  | .ok x => x.1
  | .error _ => 0

/-- Contribution of one project to `projects_synced`. -/
def projCounted (tasksOf : TProject → Except String (List RawTask))
    (upsert : List RawTask → Except String Nat) (pr : TProject) : Nat :=
  match syncProject tasksOf upsert pr with
  | .ok x => if x.2 then 1 else 0
  | .error _ => 0

/-- Error messages contributed by one project. -/
def projErrs (tasksOf : TProject → Except String (List RawTask))
    (upsert : List RawTask → Except String Nat) (pr : TProject) : List String :=
  match syncProject tasksOf upsert pr with
  | .ok _ => []
  | .error e => ["Failed to sync project " ++ pr.id ++ ": " ++ e]

lemma tickLoop_spec (tasksOf : TProject → Except String (List RawTask))
    (upsert : List RawTask → Except String Nat) :
    ∀ (l : List TProject) (total ps : Nat) (errs : List String),
      tickLoop tasksOf upsert l (total, ps, errs) =
        (total + (l.map (projCount tasksOf upsert)).sum,
         ps + (l.map (projCounted tasksOf upsert)).sum,
         errs ++ (l.map (projErrs tasksOf upsert)).flatten) := by
  intro l
  induction l with
  | nil => intro total ps errs; simp [tickLoop]
  | cons pr rest ih =>
    intro total ps errs
    simp only [tickLoop]
    cases h : syncProject tasksOf upsert pr with
    | ok x =>
      obtain ⟨c, flag⟩ := x
      simp [ih, projCount, projCounted, projErrs, h, Nat.add_assoc,
        List.append_assoc]
    | error e =>
      simp [ih, projCount, projCounted, projErrs, h, List.append_assoc]

/-- A raw activity with the given id and every optional field absent. -/
def mkRawActivity (i : Int) : RawActivity :=
  ⟨i, none, none, none, none, none, none, none, none, none, none, none,
   none, none, none, none⟩

/-- A raw task with the given id and every optional field absent. -/
def mkRawTask (s : String) : RawTask :=
  ⟨s, none, none, none, none, none, none, none, none, none, none, none,
   none, none, none, none, none, none, none, none, none, none, none⟩

/-! Claim theorems. -/

/-- C4: running `upsert_activities` or `upsert_tasks` twice with identical
input leaves the same rows in storage as running it once (no duplicate
rows, since the primary-key conflict overwrites every mutable field); the
value stored at a key written by a batch is the last derived row of that
batch with that key (last-write-wins, so the second run's value wins when
a field differs); and the call returns the length of its input, not the
number of rows changed. -/
theorem upsert_idempotent_lww :
    (∀ (p : String → Option Int) (tbl : Table Int ActivityRow)
       (rows : List RawActivity) (now : Int),
       (upsert_activities p (upsert_activities p tbl rows now).1 rows now).1 =
         (upsert_activities p tbl rows now).1) ∧
    (∀ (p : String → Option Int) (tbl : Table String TaskRow)
       (tasks : List RawTask) (now : Int),
       (upsert_tasks p (upsert_tasks p tbl tasks now).1 tasks now).1 =
         (upsert_tasks p tbl tasks now).1) ∧
    (∀ (p : String → Option Int) (tbl : Table Int ActivityRow)
       (rows : List RawActivity) (now : Int) (k : Int) (v : ActivityRow),
       lastVal (rows.map fun r => (r.id, deriveActivity p r now)) k = some v →
       (upsert_activities p tbl rows now).1 k = some v) ∧
    (∀ (p : String → Option Int) (tbl : Table String TaskRow)
       (tasks : List RawTask) (now : Int) (k : String) (v : TaskRow),
       lastVal (tasks.map fun t => (t.id, deriveTask p t now)) k = some v →
       (upsert_tasks p tbl tasks now).1 k = some v) ∧
    (∀ (p : String → Option Int) (tbl : Table Int ActivityRow)
       (rows : List RawActivity) (now : Int),
       (upsert_activities p tbl rows now).2 = rows.length) ∧
    (∀ (p : String → Option Int) (tbl : Table String TaskRow)
       (tasks : List RawTask) (now : Int),
       (upsert_tasks p tbl tasks now).2 = tasks.length) := by
  refine ⟨?_, ?_, ?_, ?_, ?_, ?_⟩
  · intro p tbl rows now
    rw [upsert_activities_fst, upsert_activities_fst, runWrites_twice]
  · intro p tbl tasks now
    rw [upsert_tasks_fst, upsert_tasks_fst, runWrites_twice]
  · intro p tbl rows now k v h
    rw [upsert_activities_fst, runWrites_apply, h]
  · intro p tbl tasks now k v h
    rw [upsert_tasks_fst, runWrites_apply, h]
  · intro p tbl rows now; rfl
  · intro p tbl tasks now; rfl

/-- Witness for C4 at a concrete one-record batch. -/
theorem upsert_idempotent_lww_witness :
    lastVal ([mkRawActivity 1].map fun r =>
        (r.id, deriveActivity (fun _ => none) r 0)) 1 =
      some (deriveActivity (fun _ => none) (mkRawActivity 1) 0) ∧
    (upsert_activities (fun _ => none) (emptyTable Int ActivityRow)
        [mkRawActivity 1] 0).1 1 =
      some (deriveActivity (fun _ => none) (mkRawActivity 1) 0) :=
  ⟨rfl, upsert_idempotent_lww.2.2.1 (fun _ => none)
    (emptyTable Int ActivityRow) [mkRawActivity 1] 0 1 _ rfl⟩

/-- C5 counterexample: the claim says a storage failure partway through a
batch leaves the records written before the failure committed.  In the
code the whole batch runs inside one `with db()` block, which rolls back
on any exception: with a batch of two records whose second write fails,
the first record is not in storage afterwards. -/
theorem upsert_tx_counterexample :
    (upsert_activities_tx (fun _ => none) (emptyTable Int ActivityRow)
        [mkRawActivity 1, mkRawActivity 2] (fun i => i == 1) 0).2 =
      Except.error "MergeError" ∧
    (upsert_activities_tx (fun _ => none) (emptyTable Int ActivityRow)
        [mkRawActivity 1, mkRawActivity 2] (fun i => i == 1) 0).1 1 =
      none :=
  ⟨rfl, rfl⟩

/-- C5 amended: each upsert batch is a single transaction unit; a storage
failure partway through the batch rolls the whole batch back, leaving the
durable state exactly as before the call. -/
theorem upsert_tx_rollback (p : String → Option Int)
    (durable : Table Int ActivityRow) (rows : List RawActivity)
    (fails : Nat → Bool) (now : Int) (e : String)
    (h : (upsert_activities_tx p durable rows fails now).2 = .error e) :
    (upsert_activities_tx p durable rows fails now).1 = durable := by
  unfold upsert_activities_tx at h ⊢
  cases hgo : upsertActivitiesLoop p fails now durable rows 0 with
  | ok tbl => rw [hgo] at h; simp at h
  | error e' => rfl

/-- Witness for C5's amended rollback theorem at a concrete failing batch. -/
theorem upsert_tx_rollback_witness :
    (upsert_activities_tx (fun _ => none) (emptyTable Int ActivityRow)
        [mkRawActivity 3, mkRawActivity 4] (fun i => i == 1) 0).2 =
      Except.error "MergeError" ∧
    (upsert_activities_tx (fun _ => none) (emptyTable Int ActivityRow)
        [mkRawActivity 3, mkRawActivity 4] (fun i => i == 1) 0).1 =
      emptyTable Int ActivityRow :=
  ⟨rfl, upsert_tx_rollback (fun _ => none) (emptyTable Int ActivityRow)
    [mkRawActivity 3, mkRawActivity 4] (fun i => i == 1) 0 "MergeError" rfl⟩

/-- C8: a page-cursor fetch against a source that returns `n` non-empty
pages starting at `start` followed by one empty page yields exactly the
concatenation of those `n` pages and issues exactly `n + 1` page requests,
stopping at the first empty page. -/
theorem pagination_termination (source : Nat → List α) (n start fuel : Nat)
    (hpages : ∀ i, i < n → source (start + i) ≠ [])
    (hstop : source (start + n) = [])
    (hfuel : n + 1 ≤ fuel) :
    fetch_all_activities source start fuel =
      some (pagesConcat source start n, n + 1) := by
  unfold fetch_all_activities
  rw [fetchPagesLoop_spec source n start [] 0 fuel hpages hstop hfuel]
  simp

/-- Witness for C8 with two non-empty pages starting at page 1. -/
theorem pagination_termination_witness :
    (∀ i, i < 2 →
      (fun p => if p = 1 then [10] else if p = 2 then [20] else ([] : List Nat))
        (1 + i) ≠ []) ∧
    fetch_all_activities
      (fun p => if p = 1 then [10] else if p = 2 then [20] else ([] : List Nat))
      1 3 = some ([10, 20], 3) :=
  ⟨by decide,
   pagination_termination
     (fun p => if p = 1 then [10] else if p = 2 then [20] else ([] : List Nat))
     2 1 3 (by decide) (by decide) (by decide)⟩

/-- C2 counterexample: with TickTick skipped and Strava (the only enabled
provider) failing, the claim requires `OverallResult.status = failure`,
but the code's final both-failed check needs both result dictionaries to
be present and erroneous, so the status stays `partial_failure`. -/
theorem overall_status_counterexample :
    overall_status false true ⟨.error, 0, ["Strava sync failed: e"]⟩
        ⟨.success, 0, 0, []⟩ = Overall.partial_failure ∧
    Overall.partial_failure ≠ Overall.failure :=
  ⟨rfl, by decide⟩

/-- C2 amended: `overall_status` is `failure` iff both providers were
enabled and both failed; `partial_failure` iff at least one enabled
provider failed and not both did; `success` iff no enabled provider
failed.  In particular a run with exactly one enabled provider that fails
ends in `partial_failure`, not `failure`. -/
theorem overall_status_amended (skipS skipT : Bool)
    (sres : StravaResult) (tres : TickResult) :
    (overall_status skipS skipT sres tres = .failure ↔
      (skipS = false ∧ skipT = false ∧ sres.status = .error ∧
        tres.status = .error)) ∧
    (overall_status skipS skipT sres tres = .success ↔
      ((skipS = true ∨ sres.status ≠ .error) ∧
        (skipT = true ∨ tres.status ≠ .error))) ∧
    (overall_status skipS skipT sres tres = .partial_failure ↔
      (((skipS = false ∧ sres.status = .error) ∨
         (skipT = false ∧ tres.status = .error)) ∧
        ¬(skipS = false ∧ skipT = false ∧ sres.status = .error ∧
           tres.status = .error))) := by
  obtain ⟨ss, sn, serr⟩ := sres
  obtain ⟨ts, tn, tp, terr⟩ := tres
  cases skipS <;> cases skipT <;> cases ss <;> cases ts <;>
    simp [overall_status]

/-- C9 counterexample: the claim says any error raised during one
provider's refresh, fetch or merge becomes that provider's result with
`status = error`; but an error from fetching a TickTick project's tasks is
caught by the inner per-project handler of `sync_ticktick`, which appends
the message and leaves the status `success` — here a concrete project
fetch error yields a result whose error list is non-empty while the
status is `success`, not `error`. -/
theorem failure_isolation_counterexample :
    (sync_ticktick (.ok [⟨"p"⟩]) (fun _ => .error "boom")
        (fun _ => .ok 0)).errors ≠ [] ∧
    (sync_ticktick (.ok [⟨"p"⟩]) (fun _ => .error "boom")
        (fun _ => .ok 0)).status = .success ∧
    PStat.success ≠ PStat.error :=
  ⟨by decide, rfl, by decide⟩

/-- C9 amended: errors raised during Strava's refresh, fetch or merge and
during TickTick's refresh or project enumeration are caught at the
orchestrator boundary and become that provider's result with
`status = error` and a non-empty error list; an error raised while
fetching or upserting one TickTick project's tasks is instead caught by
the inner per-project handler, which appends the message to the error
list while the status stays `success`.  Either way the other provider's
sync still runs (both results are computed independently), and when
Strava fails while TickTick succeeds the overall status is
`partial_failure`. -/
theorem failure_isolation_amended :
    (∀ (e : String) (uS : List RawActivity → Except String Nat),
       (sync_strava (.error e) uS).status = .error ∧
       (sync_strava (.error e) uS).errors ≠ []) ∧
    (∀ (e : String) (acts : List RawActivity), acts ≠ [] →
       (sync_strava (.ok acts) (fun _ => .error e)).status = .error ∧
       (sync_strava (.ok acts) (fun _ => .error e)).errors ≠ []) ∧
    (∀ (e : String) (tasksOf : TProject → Except String (List RawTask))
       (uT : List RawTask → Except String Nat),
       (sync_ticktick (.error e) tasksOf uT).status = .error ∧
       (sync_ticktick (.error e) tasksOf uT).errors ≠ []) ∧
    (∀ (tasksOf : TProject → Except String (List RawTask))
       (uT : List RawTask → Except String Nat)
       (l1 l2 : List TProject) (pr : TProject) (e : String),
       syncProject tasksOf uT pr = .error e →
       (sync_ticktick (.ok (l1 ++ pr :: l2)) tasksOf uT).status = .success ∧
       ("Failed to sync project " ++ pr.id ++ ": " ++ e) ∈
         (sync_ticktick (.ok (l1 ++ pr :: l2)) tasksOf uT).errors) ∧
    (∀ (e : String) (uS : List RawActivity → Except String Nat)
       (l : List TProject)
       (tasksOf : TProject → Except String (List RawTask))
       (uT : List RawTask → Except String Nat),
       (sync_ticktick (.ok l) tasksOf uT).status = .success ∧
       overall_status false false (sync_strava (.error e) uS)
         (sync_ticktick (.ok l) tasksOf uT) = .partial_failure) := by
  refine ⟨?_, ?_, ?_, ?_, ?_⟩
  · intro e uS
    exact ⟨rfl, by simp [sync_strava]⟩
  · intro e acts hacts
    cases acts with
    | nil => exact absurd rfl hacts
    | cons a rest => exact ⟨by simp [sync_strava], by simp [sync_strava]⟩
  · intro e tasksOf uT
    exact ⟨rfl, by simp [sync_ticktick]⟩
  · intro tasksOf uT l1 l2 pr e h
    have hspec := tickLoop_spec tasksOf uT (l1 ++ pr :: l2) 0 0 []
    have herr : projErrs tasksOf uT pr =
        ["Failed to sync project " ++ pr.id ++ ": " ++ e] := by
      simp [projErrs, h]
    refine ⟨rfl, ?_⟩
    simp only [sync_ticktick, hspec]
    simp [herr]
  · intro e uS l tasksOf uT
    exact ⟨rfl, rfl⟩

/-- Witness for C9's amended theorem at concrete provider outcomes: a
Strava merge failure, a TickTick project-enumeration failure, a TickTick
per-project fetch failure, and the Strava-fails/TickTick-succeeds run. -/
theorem failure_isolation_amended_witness :
    ([mkRawActivity 7] : List RawActivity) ≠ [] ∧
    ((sync_strava (.ok [mkRawActivity 7])
        (fun _ => .error "db down")).status = .error ∧
     (sync_strava (.ok [mkRawActivity 7])
        (fun _ => .error "db down")).errors ≠ []) ∧
    ((sync_ticktick (.error "list failed") (fun _ => .ok [])
        (fun _ => .ok 0)).status = .error ∧
     (sync_ticktick (.error "list failed") (fun _ => .ok [])
        (fun _ => .ok 0)).errors ≠ []) ∧
    syncProject (fun _ => .error "boom") (fun _ => .ok 0) ⟨"q"⟩ =
      .error "boom" ∧
    ((sync_ticktick (.ok ([] ++ (⟨"q"⟩ : TProject) :: []))
        (fun _ => .error "boom") (fun _ => .ok 0)).status = .success ∧
     ("Failed to sync project " ++ "q" ++ ": " ++ "boom") ∈
       (sync_ticktick (.ok ([] ++ (⟨"q"⟩ : TProject) :: []))
         (fun _ => .error "boom") (fun _ => .ok 0)).errors) ∧
    ((sync_ticktick (.ok []) (fun _ => .ok []) (fun _ => .ok 0)).status =
       .success ∧
     overall_status false false (sync_strava (.error "x") (fun _ => .ok 0))
       (sync_ticktick (.ok []) (fun _ => .ok []) (fun _ => .ok 0)) =
       .partial_failure) :=
  ⟨by decide,
   failure_isolation_amended.2.1 "db down" [mkRawActivity 7] (by decide),
   failure_isolation_amended.2.2.1 "list failed" (fun _ => .ok [])
     (fun _ => .ok 0),
   rfl,
   failure_isolation_amended.2.2.2.1 (fun _ => .error "boom")
     (fun _ => .ok 0) [] [] ⟨"q"⟩ "boom" rfl,
   failure_isolation_amended.2.2.2.2 "x" (fun _ => .ok 0) []
     (fun _ => .ok []) (fun _ => .ok 0)⟩

/-- C10: when project enumeration succeeds but one project's fetch or
upsert raises, the error message is appended to the result's error list,
the remaining projects are still processed (the count still sums the
contributions of the projects before and after the failing one), and the
provider's status stays `success` — so a TickTick result can be `success`
with a non-empty error list. -/
theorem ticktick_partial_success
    (tasksOf : TProject → Except String (List RawTask))
    (upsert : List RawTask → Except String Nat)
    (l1 l2 : List TProject) (pr : TProject) (e : String)
    (h : syncProject tasksOf upsert pr = .error e) :
    (sync_ticktick (.ok (l1 ++ pr :: l2)) tasksOf upsert).status =
      .success ∧
    ("Failed to sync project " ++ pr.id ++ ": " ++ e) ∈
      (sync_ticktick (.ok (l1 ++ pr :: l2)) tasksOf upsert).errors ∧
    (sync_ticktick (.ok (l1 ++ pr :: l2)) tasksOf upsert).tasks_synced =
      ((l1 ++ l2).map (projCount tasksOf upsert)).sum ∧
    (sync_ticktick (.ok (l1 ++ pr :: l2)) tasksOf upsert).errors ≠ [] := by
  have hspec := tickLoop_spec tasksOf upsert (l1 ++ pr :: l2) 0 0 []
  have herr : projErrs tasksOf upsert pr =
      ["Failed to sync project " ++ pr.id ++ ": " ++ e] := by
    simp [projErrs, h]
  have hcnt : projCount tasksOf upsert pr = 0 := by
    simp [projCount, h]
  refine ⟨rfl, ?_, ?_, ?_⟩
  · simp only [sync_ticktick, hspec]
    simp [herr]
  · simp only [sync_ticktick, hspec]
    simp [hcnt]
  · simp only [sync_ticktick, hspec]
    simp [herr]

/-- Witness for C10: middle project fails, neighbours succeed. -/
theorem ticktick_partial_success_witness :
    syncProject
      (fun q => if q.id = "p" then .error "boom" else .ok [])
      (fun _ => .ok 0) ⟨"p"⟩ = .error "boom" ∧
    ((sync_ticktick (.ok [⟨"a"⟩, ⟨"p"⟩, ⟨"b"⟩])
        (fun q => if q.id = "p" then .error "boom" else .ok [])
        (fun _ => .ok 0)).status = .success ∧
     ("Failed to sync project " ++ "p" ++ ": " ++ "boom") ∈
       (sync_ticktick (.ok [⟨"a"⟩, ⟨"p"⟩, ⟨"b"⟩])
         (fun q => if q.id = "p" then .error "boom" else .ok [])
         (fun _ => .ok 0)).errors ∧
     (sync_ticktick (.ok [⟨"a"⟩, ⟨"p"⟩, ⟨"b"⟩])
        (fun q => if q.id = "p" then .error "boom" else .ok [])
        (fun _ => .ok 0)).tasks_synced =
       ((([(⟨"a"⟩ : TProject)] : List TProject) ++
           ([(⟨"b"⟩ : TProject)] : List TProject)).map (projCount
         (fun q => if q.id = "p" then .error "boom" else .ok [])
         (fun _ => .ok 0))).sum ∧
     (sync_ticktick (.ok [⟨"a"⟩, ⟨"p"⟩, ⟨"b"⟩])
        (fun q => if q.id = "p" then .error "boom" else .ok [])
        (fun _ => .ok 0)).errors ≠ []) :=
  ⟨rfl,
   ticktick_partial_success
     (fun q => if q.id = "p" then .error "boom" else .ok [])
     (fun _ => .ok 0) [⟨"a"⟩] [⟨"b"⟩] ⟨"p"⟩ "boom" rfl⟩

/-- C6 counterexample: the claim says reset with a replacement token
clears the stored access token and expiry for every provider, but the
Strava conflict branch updates only `refresh_token` and `updated_at`, so
an existing row keeps its access token. -/
theorem reset_counterexample :
    (strava_reset_refresh_token (some ⟨some "r0", some "A", some 99, 0⟩)
        (some "r1") 5).bind (·.access_token) = some "A" ∧
    (some "A" : Option String) ≠ none :=
  ⟨rfl, by decide⟩

/-- C6 amended: TickTick's reset with a (non-empty) replacement token
stores it and clears the access token and expiry; Strava's reset stores
the replacement but keeps an existing row's access token and expiry
(clearing them only when no row existed); for both providers, reset with
no replacement token deletes the credential row. -/
theorem reset_amended :
    (∀ (store : Option Credential) (n : String) (now : Int), n ≠ "" →
      ticktick_reset_refresh_token store (some n) now =
        some ⟨some n, none, none, now⟩) ∧
    (∀ (c : Credential) (n : String) (now : Int), n ≠ "" →
      strava_reset_refresh_token (some c) (some n) now =
        some ⟨some n, c.access_token, c.access_expires_at, now⟩) ∧
    (∀ (n : String) (now : Int), n ≠ "" →
      strava_reset_refresh_token none (some n) now =
        some ⟨some n, none, none, now⟩) ∧
    (∀ (store : Option Credential) (now : Int),
      strava_reset_refresh_token store none now = none ∧
      ticktick_reset_refresh_token store none now = none) := by
  refine ⟨?_, ?_, ?_, ?_⟩
  · intro store n now hn
    simp [ticktick_reset_refresh_token, strTruthy, hn]
  · intro c n now hn
    simp [strava_reset_refresh_token, strTruthy, hn]
  · intro n now hn
    simp [strava_reset_refresh_token, strTruthy, hn]
  · intro store now
    exact ⟨rfl, rfl⟩

/-- Witness for C6's amended reset theorem at concrete inputs. -/
theorem reset_amended_witness :
    ticktick_reset_refresh_token (some ⟨some "r0", some "A", some 99, 0⟩)
        (some "r1") 5 = some ⟨some "r1", none, none, 5⟩ ∧
    strava_reset_refresh_token (some ⟨some "r0", some "A", some 99, 0⟩)
        (some "r1") 5 = some ⟨some "r1", some "A", some 99, 5⟩ :=
  ⟨reset_amended.1 (some ⟨some "r0", some "A", some 99, 0⟩) "r1" 5
     (by decide),
   reset_amended.2.1 ⟨some "r0", some "A", some 99, 0⟩ "r1" 5 (by decide)⟩

/-- C7 counterexample: the claim says a partial put (refresh-only) leaves
unsupplied fields at their previously stored values; but the write
overwrites every column, so a refresh-only call nulls out the stored
access token. -/
theorem put_merge_counterexample :
    (save_refresh_token (some ⟨some "r0", some "A", some 50, 0⟩) "r1"
        none none 10).bind (·.access_token) = none ∧
    (none : Option String) ≠ some "A" :=
  ⟨rfl, by decide⟩

/-- C7 amended: the put operation is an insert-or-replace keyed by
provider that overwrites every field with exactly the supplied values —
the previous row content is irrelevant, and fields not supplied are stored
as null (a blind overwrite, not a merge-on-conflict). -/
theorem put_overwrite_amended :
    (∀ (s1 s2 : Option Credential) (rt : String) (at? : Option String)
       (e : Option Int) (now : Int),
       save_refresh_token s1 rt at? e now = save_refresh_token s2 rt at? e now) ∧
    (∀ (s : Option Credential) (rt : String) (at? : Option String)
       (e : Option Int) (now : Int),
       save_refresh_token s rt at? e now =
         some ⟨some rt, at?, stravaExpiryTs e, now⟩) ∧
    (∀ (s1 s2 : Option Credential) (rt? at? : Option String)
       (e : Option Int) (now : Int),
       save_tokens s1 rt? at? e now = save_tokens s2 rt? at? e now) ∧
    (∀ (s : Option Credential) (rt? at? : Option String)
       (e : Option Int) (now : Int),
       save_tokens s rt? at? e now =
         some ⟨rt?, at?, ticktickExpiryTs now e, now⟩) :=
  ⟨fun _ _ _ _ _ _ => rfl, fun _ _ _ _ _ => rfl,
   fun _ _ _ _ _ _ => rfl, fun _ _ _ _ _ => rfl⟩

lemma strTruthy_some_iff (s : String) : strTruthy (some s) = true ↔ s ≠ "" := by
  simp [strTruthy]

lemma orTruthy_truthy {a b : Option String}
    (h : strTruthy (orTruthy a b) = true) :
    ∃ rt, orTruthy a b = some rt ∧ rt ≠ "" := by
  cases heq : orTruthy a b with
  | none => rw [heq] at h; simp [strTruthy] at h
  | some s =>
    rw [heq] at h
    exact ⟨s, rfl, (strTruthy_some_iff s).mp h⟩

lemma beq_empty_false {s : String} (h : s ≠ "") : (s == "") = false := by
  cases hx : s == "" with
  | false => rfl
  | true => exact absurd (by simpa using hx) h

lemma refresh_access_token_calls (store : Option Credential)
    (envRT : Option String) (resp : Except String TPayload) (now : Int)
    (h : strTruthy (orTruthy (store.bind (·.refresh_token)) envRT) = true) :
    (refresh_access_token store envRT resp now).refreshCalls = 1 := by
  obtain ⟨rt, heq, hne⟩ := orTruthy_truthy h
  unfold refresh_access_token
  rw [heq]
  simp only [beq_empty_false hne, Bool.false_eq_true, if_false]
  cases resp with
  | error d => rfl
  | ok payload => cases hpa : payload.access_token <;> simp [hpa]

lemma strava_access_token_calls (store : Option Credential)
    (envRT : Option String) (resp : Except String SPayload) (now : Int)
    (h : strTruthy (orTruthy (store.bind (·.refresh_token)) envRT) = true) :
    (strava_access_token store envRT resp now).refreshCalls = 1 := by
  obtain ⟨rt, heq, hne⟩ := orTruthy_truthy h
  unfold strava_access_token
  rw [heq]
  simp only [beq_empty_false hne, Bool.false_eq_true, if_false]
  cases resp with
  | error d => rfl
  | ok payload => cases hpa : payload.access_token <;> simp [hpa]

lemma headers_cache_hit (c : Credential) (a : String) (now : Int)
    (envRT envAT : Option String) (resp : Except String TPayload)
    (hat : c.access_token = some a) (ha : a ≠ "")
    (hexp : match c.access_expires_at with
      | none => True
      | some ex => now < ex) :
    headers (some c) now envRT envAT resp =
      ⟨.ok ("Bearer " ++ a), some c, 0⟩ := by
  have hfresh : tokenFresh c.access_token c.access_expires_at now = true := by
    unfold tokenFresh
    rw [hat]
    cases hex : c.access_expires_at with
    | none => simp [strTruthy, ha]
    | some ex =>
      rw [hex] at hexp
      simp only [strTruthy, Bool.and_eq_true]
      exact ⟨by simpa using ha, by simpa using hexp⟩
  unfold headers
  simp only [Option.some_bind']
  rw [hfresh]
  simp [hat]

lemma headers_calls (store : Option Credential) (now : Int)
    (envRT envAT : Option String) (resp : Except String TPayload)
    (hfresh : tokenFresh (store.bind (·.access_token))
      (store.bind (·.access_expires_at)) now = false)
    (hrt : strTruthy (orTruthy (store.bind (·.refresh_token)) envRT) = true) :
    (headers store now envRT envAT resp).refreshCalls = 1 := by
  have h1 := refresh_access_token_calls store envRT resp now hrt
  unfold headers
  simp only [hfresh, Bool.false_eq_true, if_false]
  rcases hout : refresh_access_token store envRT resp now with ⟨res, st, n⟩
  rw [hout] at h1
  simp only at h1
  cases res with
  | ok a => simpa using h1
  | error e =>
    cases envAT with
    | none => simpa using h1
    | some a =>
      cases ha : a == "" <;> simp_all

/-- C1 counterexample: the claim says every provider's token-producing
operation returns the stored access token with zero network calls when it
is present and unexpired; but `strava_access_token` never reads the
stored access token, so with a valid cached token (expiry 1000 > now 500)
it still issues one refresh call. -/
theorem token_cache_counterexample :
    tokenFresh (some "X") (some 1000) 500 = true ∧
    (strava_access_token (some ⟨some "r", some "X", some 1000, 0⟩) none
        (.ok ⟨some "A", none, some 2000⟩) 500).refreshCalls = 1 ∧
    (1 : Nat) ≠ 0 :=
  ⟨by decide, rfl, by decide⟩

/-- C1 amended: only TickTick's `headers` implements the token cache — a
stored non-empty access token whose expiry is null or strictly later than
now is returned unchanged with zero refresh calls, and a cache miss with
an available refresh token makes exactly one refresh call.  Strava's
`strava_access_token` issues exactly one refresh call whenever a refresh
token is available, regardless of the stored access token and expiry. -/
theorem token_cache_amended :
    (∀ (c : Credential) (a : String) (now : Int) (envRT envAT : Option String)
       (resp : Except String TPayload),
       c.access_token = some a → a ≠ "" →
       (match c.access_expires_at with
        | none => True
        | some ex => now < ex) →
       headers (some c) now envRT envAT resp =
         ⟨.ok ("Bearer " ++ a), some c, 0⟩) ∧
    (∀ (store : Option Credential) (now : Int) (envRT envAT : Option String)
       (resp : Except String TPayload),
       tokenFresh (store.bind (·.access_token))
         (store.bind (·.access_expires_at)) now = false →
       strTruthy (orTruthy (store.bind (·.refresh_token)) envRT) = true →
       (headers store now envRT envAT resp).refreshCalls = 1) ∧
    (∀ (store : Option Credential) (now : Int) (envRT : Option String)
       (resp : Except String SPayload),
       strTruthy (orTruthy (store.bind (·.refresh_token)) envRT) = true →
       (strava_access_token store envRT resp now).refreshCalls = 1) :=
  ⟨fun c a now envRT envAT resp hat ha hexp =>
     headers_cache_hit c a now envRT envAT resp hat ha hexp,
   fun store now envRT envAT resp hfresh hrt =>
     headers_calls store now envRT envAT resp hfresh hrt,
   fun store now envRT resp h =>
     strava_access_token_calls store envRT resp now h⟩

/-- Witness for C1's amended theorem: a cache hit, a cache miss, and the
Strava path, each at concrete inputs. -/
theorem token_cache_amended_witness :
    (Credential.mk (some "r") (some "X") (some 1000) 0).access_token =
      some "X" ∧
    headers (some ⟨some "r", some "X", some 1000, 0⟩) 500 none none
        (.error "x") = ⟨.ok "Bearer X", some ⟨some "r", some "X", some 1000, 0⟩, 0⟩ ∧
    (headers (some ⟨some "r", none, none, 0⟩) 0 none none
        (.error "x")).refreshCalls = 1 ∧
    (strava_access_token none (some "r") (.ok ⟨some "A", none, none⟩)
        0).refreshCalls = 1 :=
  ⟨rfl,
   token_cache_amended.1 ⟨some "r", some "X", some 1000, 0⟩ "X" 500 none none
     (.error "x") rfl (by decide) (by decide),
   token_cache_amended.2.1 (some ⟨some "r", none, none, 0⟩) 0 none none
     (.error "x") rfl rfl,
   token_cache_amended.2.2 none 0 (some "r") (.ok ⟨some "A", none, none⟩) rfl⟩

lemma strava_ok_reduce (c : Credential) (rt : String) (envRT : Option String)
    (p : SPayload) (now : Int)
    (hstored : c.refresh_token = some rt) (hne : rt ≠ "") :
    strava_access_token (some c) envRT (.ok p) now =
      ⟨match p.access_token with
        | some a => .ok a
        | none => .error "KeyError: access_token",
       if strTruthy p.refresh_token ∧ p.refresh_token ≠ some rt then
         match p.refresh_token with
         | some nrt =>
           save_refresh_token (some c) nrt p.access_token p.expires_at now
         | none =>
           save_refresh_token (some c) rt p.access_token p.expires_at now
       else save_refresh_token (some c) rt p.access_token p.expires_at now,
       1⟩ := by
  have hbind : (some c).bind (fun x => x.refresh_token) = some rt := by
    simp [hstored]
  unfold strava_access_token
  rw [hbind, show orTruthy (some rt) envRT = some rt from by
    simp [orTruthy, strTruthy, beq_empty_false hne]]
  simp only [beq_empty_false hne, Bool.false_eq_true, if_false]
  cases hpa : p.access_token <;> simp [hpa]

lemma ticktick_ok_reduce (c : Credential) (rt : String)
    (envRT : Option String) (q : TPayload) (now : Int)
    (hstored : c.refresh_token = some rt) (hne : rt ≠ "") :
    refresh_access_token (some c) envRT (.ok q) now =
      ⟨match q.access_token with
        | some a => .ok a
        | none => .error "KeyError: access_token",
       save_tokens (some c) (orTruthy q.refresh_token (some rt))
         q.access_token q.expires_in now,
       1⟩ := by
  have hbind : (some c).bind (fun x => x.refresh_token) = some rt := by
    simp [hstored]
  unfold refresh_access_token
  rw [hbind, show orTruthy (some rt) envRT = some rt from by
    simp [orTruthy, strTruthy, beq_empty_false hne]]
  simp only [beq_empty_false hne, Bool.false_eq_true, if_false]
  cases hpa : q.access_token <;> simp [hpa]

/-- C3: on every successful refresh, for both providers, a rotated
refresh token in the response (non-empty, different from the one used) is
the stored `refresh_token` afterwards; a response omitting the refresh
token leaves the stored one unchanged; and the persisted credential holds
the response's access token and converted expiry — in particular the
token handed back to the caller is exactly the one just persisted.
(TickTick persists a non-empty response token even when it equals the one
used, which also leaves the stored value unchanged.) -/
theorem refresh_rotation (rt : String) (c : Credential) (now : Int)
    (envRT envRT2 : Option String) (p : SPayload) (q : TPayload)
    (hstored : c.refresh_token = some rt) (hne : rt ≠ "") :
    (strTruthy p.refresh_token = true → p.refresh_token ≠ some rt →
      (strava_access_token (some c) envRT (.ok p) now).store.bind
        (·.refresh_token) = p.refresh_token) ∧
    (p.refresh_token = none →
      (strava_access_token (some c) envRT (.ok p) now).store.bind
        (·.refresh_token) = some rt) ∧
    ((strava_access_token (some c) envRT (.ok p) now).store.bind
        (·.access_token) = p.access_token ∧
     (strava_access_token (some c) envRT (.ok p) now).store.bind
        (·.access_expires_at) = stravaExpiryTs p.expires_at) ∧
    (∀ a, (strava_access_token (some c) envRT (.ok p) now).result = .ok a →
      (strava_access_token (some c) envRT (.ok p) now).store.bind
        (·.access_token) = some a) ∧
    (strTruthy q.refresh_token = true →
      (refresh_access_token (some c) envRT2 (.ok q) now).store.bind
        (·.refresh_token) = q.refresh_token) ∧
    (q.refresh_token = none →
      (refresh_access_token (some c) envRT2 (.ok q) now).store.bind
        (·.refresh_token) = some rt) ∧
    ((refresh_access_token (some c) envRT2 (.ok q) now).store.bind
        (·.access_token) = q.access_token ∧
     (refresh_access_token (some c) envRT2 (.ok q) now).store.bind
        (·.access_expires_at) = ticktickExpiryTs now q.expires_in) ∧
    (∀ a, (refresh_access_token (some c) envRT2 (.ok q) now).result = .ok a →
      (refresh_access_token (some c) envRT2 (.ok q) now).store.bind
        (·.access_token) = some a) := by
  rw [strava_ok_reduce c rt envRT p now hstored hne,
    ticktick_ok_reduce c rt envRT2 q now hstored hne]
  refine ⟨?_, ?_, ?_, ?_, ?_, ?_, ?_, ?_⟩
  · intro htr hneq
    rw [if_pos ⟨htr, hneq⟩]
    cases hp : p.refresh_token with
    | none => rw [hp] at htr; simp [strTruthy] at htr
    | some nrt => simp [save_refresh_token]
  · intro hp
    rw [if_neg (by rw [hp]; simp [strTruthy])]
    simp [save_refresh_token]
  · constructor
    · by_cases hcond : strTruthy p.refresh_token = true ∧ p.refresh_token ≠ some rt
      · rw [if_pos hcond]
        cases hp : p.refresh_token with
        | none => rw [hp] at hcond; simp [strTruthy] at hcond
        | some nrt => simp [save_refresh_token]
      · rw [if_neg hcond]; simp [save_refresh_token]
    · by_cases hcond : strTruthy p.refresh_token = true ∧ p.refresh_token ≠ some rt
      · rw [if_pos hcond]
        cases hp : p.refresh_token with
        | none => rw [hp] at hcond; simp [strTruthy] at hcond
        | some nrt => simp [save_refresh_token]
      · rw [if_neg hcond]; simp [save_refresh_token]
  · intro a ha
    cases hpa : p.access_token with
    | none => rw [hpa] at ha; simp at ha
    | some b =>
      rw [hpa] at ha
      simp only [Except.ok.injEq] at ha
      subst ha
      by_cases hcond : strTruthy p.refresh_token = true ∧ p.refresh_token ≠ some rt
      · rw [if_pos hcond]
        cases hp : p.refresh_token with
        | none => rw [hp] at hcond; simp [strTruthy] at hcond
        | some nrt => simp [save_refresh_token, hpa]
      · rw [if_neg hcond]; simp [save_refresh_token, hpa]
  · intro htr
    simp [save_tokens, orTruthy, htr]
  · intro hq
    simp [save_tokens, orTruthy, hq, strTruthy]
  · exact ⟨by simp [save_tokens], by simp [save_tokens]⟩
  · intro a ha
    cases hqa : q.access_token with
    | none => rw [hqa] at ha; simp at ha
    | some b =>
      rw [hqa] at ha
      simp only [Except.ok.injEq] at ha
      subst ha
      simp [save_tokens, hqa]

/-- Witness for C3: a Strava response rotating the refresh token, and a
TickTick response omitting it, at concrete credentials. -/
theorem refresh_rotation_witness :
    ((strava_access_token (some ⟨some "r", some "old", none, 0⟩) none
        (.ok ⟨some "A", some "r2", some 99⟩) 5).store.bind
        (·.refresh_token) = some "r2") ∧
    ((refresh_access_token (some ⟨some "r", some "old", none, 0⟩) none
        (.ok ⟨some "B", none, some 60⟩) 5).store.bind
        (·.refresh_token) = some "r") :=
  ⟨(refresh_rotation "r" ⟨some "r", some "old", none, 0⟩ 5 none none
      ⟨some "A", some "r2", some 99⟩ ⟨some "B", none, some 60⟩ rfl
      (by decide)).1 (by decide) (by decide),
   (refresh_rotation "r" ⟨some "r", some "old", none, 0⟩ 5 none none
      ⟨some "A", some "r2", some 99⟩ ⟨some "B", none, some 60⟩ rfl
      (by decide)).2.2.2.2.2.1 rfl⟩

end Aegis
